import Mathlib

/-!
Shallow embedding of `server.py`, the FastAPI backend of the
teklif (invoice & quotation) service, together with proofs of the
specification's claims about it.

Modelling conventions:
* Python `float` currency amounts are embedded as `Rat` (exact
  arithmetic; the spec itself mandates a fixed-point/decimal reading).
* The Supabase persistence gateway is embedded as in-memory lists of
  rows inside a `DB` record; `select ... eq` filters become
  `List.filter`, `insert` appends, `update` maps, `delete` filters out.
* `HTTPException` becomes an explicit `HTTPError` value returned via
  `Except`; endpoints are state-passing functions `DB → ... → DB × Except HTTPError α`.
* Python string slicing `s[:n]` becomes `pyTrunc s n` (code points),
  f-string number formatting becomes the `fmt2` / `natDecimalRepr` /
  `intRepr` functions below, and Python truthiness tests on optional
  strings / floats become `strTruthy` / the explicit `= 0` tests.
-/

namespace Teklif

/-- Embedding of `HTTPException(status_code, detail)`. -/
structure HTTPError where
  status : Nat
  detail : String
deriving Repr, DecidableEq

/-! ### Decimal printing of numbers (Python `str` / f-string formatting) -/

/-- One decimal digit as a character; callers always pass `n < 10`
(the `% 10` makes the function total without changing those values). -/
def digitChar (n : Nat) : Char := Char.ofNat (48 + n % 10)

/-- The decimal digit characters of `n`, most significant first:
the embedding of Python `str(n)` for a nonnegative integer. -/
def natDigits (n : Nat) : List Char :=
  if n < 10 then [digitChar n] else natDigits (n / 10) ++ [digitChar (n % 10)]
termination_by n
decreasing_by exact Nat.div_lt_self (by omega) (by omega)

/-- Python `str(n)` for `n : Nat`. -/
def natDecimalRepr (n : Nat) : String := String.mk (natDigits n)

/-- Python `str(i)` for an `int`. -/
def intRepr (i : Int) : String :=
  (if i < 0 then "-" else "") ++ natDecimalRepr i.natAbs

/-- Two-character zero-padded decimal, e.g. `pad2 7 = "07"`:
used by `strftime` field formatting. -/
def pad2 (n : Nat) : String := String.mk [digitChar (n / 10), digitChar n]

/-- Four-character zero-padded decimal (`%Y` for years up to 9999). -/
def pad4 (n : Nat) : String :=
  String.mk [digitChar (n / 1000), digitChar (n / 100), digitChar (n / 10), digitChar n]

/-- Embedding of Python f-string `{v:.2f}`: sign, integer part, a dot,
then exactly two fractional digits of the value rounded to cents. -/
def fmt2 (q : Rat) : String :=
  let cents : Nat := (round (|q| * 100) : Int).toNat
  (if q < 0 then "-" else "") ++ natDecimalRepr (cents / 100) ++ "." ++ pad2 (cents % 100)

/-- Python string slicing `s[:n]` (by code points, like `str`). -/
def pyTrunc (s : String) (n : Nat) : String := String.mk (s.data.take n)

/-- Python truthiness of an optional string (`None` and `""` are falsy). -/
def strTruthy : Option String → Bool
  | none => false
  | some s => s ≠ ""

/-! ### Pydantic request models (`server.py` lines 144-197) -/

/-- Embedding of `class QuotationItem(BaseModel)`: one quotation line item.
Note the model has no derived-amount fields beyond the caller-supplied
per-line `total`. -/
structure QuotationItem where
  product_name : String
  specifications : Option String := none
  quantity : Int
  unit : String := "adet"
  unit_price : Rat
  total : Rat
deriving Repr, DecidableEq

/-- Embedding of `class QuotationCreate(BaseModel)`: the create/update request body.
It has *no* `subtotal`, `tax_amount` or `total` field: those cannot be
supplied by the caller at all. -/
structure QuotationCreate where
  customer_id : String
  items : List QuotationItem
  discount_amount : Rat := 0
  tax_rate : Int := 20
  notes : Option String := none
deriving Repr, DecidableEq

/-- Embedding of `class UserCreate(BaseModel)`: registration request. -/
structure UserCreate where
  email : String
  password : String
  full_name : String
deriving Repr, DecidableEq

/-- Embedding of `class PaymentUpdate(BaseModel)`; the optional fields carry
`exclude_unset` semantics: outer `none` = field absent from the request,
`some v` = field present with value `v` (which may itself be null). -/
structure PaymentUpdate where
  payment_status : String
  payment_date : Option (Option String) := none
  payment_amount : Option (Option Rat) := none
  payment_notes : Option (Option String) := none
deriving Repr, DecidableEq

/-! ### Database rows (Supabase tables) -/

/-- A row of the `users` table. -/
structure UserRow where
  id : String
  email : String
  password_hash : String
  full_name : String
  company : Option String := none
  phone : Option String := none
  company_address : Option String := none
  subscription_plan : String := "free"
  subscription_status : String := "active"
  default_tax_rate : Int := 20
deriving Repr, DecidableEq

/-- A row of the `customers` table. -/
structure CustomerRow where
  id : String
  user_id : String
  name : String
  email : Option String := none
  phone : Option String := none
  company : Option String := none
  address : Option String := none
  tax_number : Option String := none
  tax_office : Option String := none
  notes : Option String := none
deriving Repr, DecidableEq

/-- Embedding of `class CustomerCreate(BaseModel)`: customer create/update payload.
The update endpoint applies `dict(exclude_unset=True)`; we model the
fully-populated payload (all fields supplied). -/
structure CustomerCreate where
  name : String
  email : Option String := none
  phone : Option String := none
  company : Option String := none
  address : Option String := none
  tax_number : Option String := none
  tax_office : Option String := none
  notes : Option String := none
deriving Repr, DecidableEq

/-- Embedding of `class ProductCreate(BaseModel)`: product create/update payload. -/
structure ProductCreate where
  name : String
  description : Option String := none
  category : Option String := none
  price : Rat
  stock : Int := 0
  unit : String := "adet"
  sku : Option String := none
  specifications : Option String := none
  image_base64 : Option String := none
deriving Repr, DecidableEq

/-- A row of the `products` table. -/
structure ProductRow where
  id : String
  user_id : String
  name : String
  description : Option String := none
  category : Option String := none
  price : Rat
  stock : Int := 0
  unit : String := "adet"
  sku : Option String := none
  specifications : Option String := none
  image_base64 : Option String := none
deriving Repr, DecidableEq

/-- A row of the `quotations` table. -/
structure QuotationRow where
  id : String
  user_id : String
  customer_id : String
  quotation_number : String
  subtotal : Rat
  discount_amount : Rat
  tax_rate : Int
  tax_amount : Rat
  total : Rat
  notes : Option String
  status : String
  payment_status : String
  payment_date : Option String := none
  payment_amount : Option Rat := none
  payment_notes : Option String := none
  created_at : String := ""
deriving Repr, DecidableEq

/-- A row of the `quotation_items` table: the flattened
`{"quotation_id": ..., **item.dict()}` insert payload. -/
structure QuotationItemRow where
  quotation_id : String
  product_name : String
  specifications : Option String
  quantity : Int
  unit : String
  unit_price : Rat
  total : Rat
deriving Repr, DecidableEq

/-- A row of the `reminders` table. -/
structure ReminderRow where
  id : String
  user_id : String
  quotation_id : String
  reminder_date : String
  message : String
  sent : Bool := false
deriving Repr, DecidableEq

/-- The persistence gateway's state: all tables, rows in insertion order. -/
structure DB where
  users : List UserRow := []
  customers : List CustomerRow := []
  products : List ProductRow := []
  quotations : List QuotationRow := []
  quotation_items : List QuotationItemRow := []
  reminders : List ReminderRow := []
deriving Repr, DecidableEq

/-! ### Quotation numbering (`generate_quotation_number`, lines 452-457) -/

/-- The components `datetime.now()` exposes to `strftime`.  Python's
`datetime` type guarantees `1 ≤ year ≤ 9999`. -/
structure PyDatetime where
  year : Nat
  month : Nat
  day : Nat
  hour : Nat
  minute : Nat
  second : Nat
deriving Repr, DecidableEq

/-- Embedding of `datetime.now().strftime("%Y%m%d%H%M%S")`: zero-padded components. -/
def strftimeYmdHMS (t : PyDatetime) : String :=
  pad4 t.year ++ pad2 t.month ++ pad2 t.day ++ pad2 t.hour ++ pad2 t.minute ++ pad2 t.second

/-- Embedding of `generate_quotation_number()`, with the two nondeterministic reads
(`datetime.now()` and `random.randint(1000, 9999)`) passed as arguments. -/
def generate_quotation_number (t : PyDatetime) (random_num : Nat) : String :=
  "Q-" ++ strftimeYmdHMS t ++ "-" ++ natDecimalRepr random_num

/-! ### Financial calculation (lines 477-480, repeated verbatim at 538-541) -/

/-- The four derived amounts `(subtotal, taxable_amount, tax_amount, total)`
computed by `create_quotation` and `update_quotation`. -/
def quotationAmounts (items : List QuotationItem) (discount_amount : Rat)
    (tax_rate : Int) : Rat × Rat × Rat × Rat :=
  let subtotal := (items.map (fun it => it.total)).sum
  let taxable_amount := subtotal - discount_amount
  let tax_amount := taxable_amount * ((tax_rate : Rat) / 100)
  let total := taxable_amount + tax_amount
  (subtotal, taxable_amount, tax_amount, total)

/-- The `{"quotation_id": quotation_id, **item.dict()}` insert payload. -/
def itemRow (quotation_id : String) (it : QuotationItem) : QuotationItemRow :=
  { quotation_id := quotation_id
    product_name := it.product_name
    specifications := it.specifications
    quantity := it.quantity
    unit := it.unit
    unit_price := it.unit_price
    total := it.total }

/-- Embedding of `select("*").eq("quotation_id", quotation_id)` on `quotation_items`. -/
def quotationItems (db : DB) (quotation_id : String) : List QuotationItemRow :=
  db.quotation_items.filter (fun it => it.quotation_id = quotation_id)

/-! ### Auth endpoints -/

/-- The user summary returned by `register` (token issuance elided:
JWT signing is cryptographic plumbing outside the data model). -/
structure RegisterResp where
  id : String
  email : String
  full_name : String
deriving Repr, DecidableEq

/-- Embedding of `register` (lines 239-272): reject when a user with the same email
exists (the code checks truthiness of the selected rows), otherwise
insert the new user row.  `newId` stands for the id generated by the
store, `hashed` for `hash_password(user.password)`. -/
def register (db : DB) (u : UserCreate) (newId hashed : String) :
    DB × Except HTTPError RegisterResp :=
  let existing := db.users.filter (fun r => r.email = u.email)
  if existing = [] then
    let new_user : UserRow :=
      { id := newId, email := u.email, password_hash := hashed,
        full_name := u.full_name, subscription_plan := "free",
        subscription_status := "active", default_tax_rate := 20 }
    ({ db with users := db.users ++ [new_user] },
     .ok { id := newId, email := u.email, full_name := u.full_name })
  else
    (db, .error ⟨400, "Email already registered"⟩)

/-! ### Customer endpoints (lines 386-405) -/

/-- Embedding of `get_customer`: `select("*").eq("id", cid).eq("user_id", uid)`,
404 when no row matches. -/
def get_customer (db : DB) (customer_id user_id : String) :
    Except HTTPError CustomerRow :=
  match db.customers.filter (fun r => r.id = customer_id ∧ r.user_id = user_id) with
  | [] => .error ⟨404, "Customer not found"⟩
  | r :: _ => .ok r

/-- The effect of `update(customer.dict(exclude_unset=True))` on one row. -/
def applyCustomerPatch (c : CustomerCreate) (r : CustomerRow) : CustomerRow :=
  { r with
    name := c.name
    email := c.email
    phone := c.phone
    company := c.company
    address := c.address
    tax_number := c.tax_number
    tax_office := c.tax_office
    notes := c.notes }

/-- Embedding of `update_customer`: the filtered update runs (touching every row the
filter matches), then 404 when it matched no row. -/
def update_customer (db : DB) (customer_id user_id : String) (c : CustomerCreate) :
    DB × Except HTTPError CustomerRow :=
  let matched := db.customers.filter (fun r => r.id = customer_id ∧ r.user_id = user_id)
  let customers' := db.customers.map
    (fun r => if r.id = customer_id ∧ r.user_id = user_id then applyCustomerPatch c r else r)
  let db' := { db with customers := customers' }
  match matched with
  | [] => (db', .error ⟨404, "Customer not found"⟩)
  | r :: _ => (db', .ok (applyCustomerPatch c r))

/-- Embedding of `delete_customer`: the filtered delete runs, 404 when it matched no row. -/
def delete_customer (db : DB) (customer_id user_id : String) :
    DB × Except HTTPError String :=
  let matched := db.customers.filter (fun r => r.id = customer_id ∧ r.user_id = user_id)
  let customers' := db.customers.filter
    (fun r => ¬ (r.id = customer_id ∧ r.user_id = user_id))
  let db' := { db with customers := customers' }
  match matched with
  | [] => (db', .error ⟨404, "Customer not found"⟩)
  | _ :: _ => (db', .ok "Customer deleted successfully")

/-! ### Product endpoints (lines 427-446) -/

/-- Embedding of `get_product`. -/
def get_product (db : DB) (product_id user_id : String) :
    Except HTTPError ProductRow :=
  match db.products.filter (fun r => r.id = product_id ∧ r.user_id = user_id) with
  | [] => .error ⟨404, "Product not found"⟩
  | r :: _ => .ok r

/-- The effect of `update(product.dict(exclude_unset=True))` on one row. -/
def applyProductPatch (p : ProductCreate) (r : ProductRow) : ProductRow :=
  { r with
    name := p.name
    description := p.description
    category := p.category
    price := p.price
    stock := p.stock
    unit := p.unit
    sku := p.sku
    specifications := p.specifications
    image_base64 := p.image_base64 }

/-- Embedding of `update_product`. -/
def update_product (db : DB) (product_id user_id : String) (p : ProductCreate) :
    DB × Except HTTPError ProductRow :=
  let matched := db.products.filter (fun r => r.id = product_id ∧ r.user_id = user_id)
  let products' := db.products.map
    (fun r => if r.id = product_id ∧ r.user_id = user_id then applyProductPatch p r else r)
  let db' := { db with products := products' }
  match matched with
  | [] => (db', .error ⟨404, "Product not found"⟩)
  | r :: _ => (db', .ok (applyProductPatch p r))

/-- Embedding of `delete_product`. -/
def delete_product (db : DB) (product_id user_id : String) :
    DB × Except HTTPError String :=
  let matched := db.products.filter (fun r => r.id = product_id ∧ r.user_id = user_id)
  let products' := db.products.filter
    (fun r => ¬ (r.id = product_id ∧ r.user_id = user_id))
  let db' := { db with products := products' }
  match matched with
  | [] => (db', .error ⟨404, "Product not found"⟩)
  | _ :: _ => (db', .ok "Product deleted successfully")

/-! ### Quotation endpoints (lines 474-592) -/

/-- Embedding of `create_quotation` (lines 474-520).  `newId` is the id the store
generates for the header row, `t` / `random_num` are the clock and RNG
reads inside `generate_quotation_number`, `created_at` the row
timestamp.  The handler has no rejection branch: any well-typed
`QuotationCreate` (including one with an empty `items` list) is
persisted, the four derived amounts being recomputed from the request's
items, discount and tax rate (the request carries no amount fields to
trust in the first place). -/
def create_quotation (db : DB) (user_id : String) (q : QuotationCreate)
    (newId : String) (t : PyDatetime) (random_num : Nat) (created_at : String) :
    DB × QuotationRow :=
  let amounts := quotationAmounts q.items q.discount_amount q.tax_rate
  let new_quotation : QuotationRow :=
    { id := newId
      user_id := user_id
      customer_id := q.customer_id
      quotation_number := generate_quotation_number t random_num
      subtotal := amounts.1
      discount_amount := q.discount_amount
      tax_rate := q.tax_rate
      tax_amount := amounts.2.2.1
      total := amounts.2.2.2
      notes := q.notes
      status := "pending"
      payment_status := "unpaid"
      created_at := created_at }
  let db' : DB :=
    { db with
      quotations := db.quotations ++ [new_quotation]
      quotation_items := db.quotation_items ++ q.items.map (itemRow newId) }
  (db', new_quotation)

/-- Embedding of `get_quotation` (lines 522-533): header row plus its item rows. -/
def get_quotation (db : DB) (quotation_id user_id : String) :
    Except HTTPError (QuotationRow × List QuotationItemRow) :=
  match db.quotations.filter (fun r => r.id = quotation_id ∧ r.user_id = user_id) with
  | [] => .error ⟨404, "Quotation not found"⟩
  | r :: _ => .ok (r, quotationItems db quotation_id)

/-- The header `update_data` of `update_quotation` applied to one row:
customer, the four recomputed amounts, discount, tax rate and notes. -/
def applyQuotationPatch (q : QuotationCreate) (r : QuotationRow) : QuotationRow :=
  let amounts := quotationAmounts q.items q.discount_amount q.tax_rate
  { r with
    customer_id := q.customer_id
    subtotal := amounts.1
    discount_amount := q.discount_amount
    tax_rate := q.tax_rate
    tax_amount := amounts.2.2.1
    total := amounts.2.2.2
    notes := q.notes }

/-- Embedding of `update_quotation` (lines 535-577): run the filtered header update;
404 if it matched nothing (items untouched in that case); otherwise
delete every prior item row of this quotation (filtered by
`quotation_id` alone, as in the source) and insert the new snapshots,
then return the re-queried item rows. -/
def update_quotation (db : DB) (quotation_id user_id : String) (q : QuotationCreate) :
    DB × Except HTTPError (List QuotationItemRow) :=
  let matched := db.quotations.filter (fun r => r.id = quotation_id ∧ r.user_id = user_id)
  let quotations' := db.quotations.map
    (fun r => if r.id = quotation_id ∧ r.user_id = user_id then applyQuotationPatch q r else r)
  let db₁ := { db with quotations := quotations' }
  match matched with
  | [] => (db₁, .error ⟨404, "Quotation not found"⟩)
  | _ :: _ =>
    let kept := db₁.quotation_items.filter (fun it => ¬ it.quotation_id = quotation_id)
    let db₂ := { db₁ with quotation_items := kept ++ q.items.map (itemRow quotation_id) }
    (db₂, .ok (quotationItems db₂ quotation_id))

/-- Embedding of `delete_quotation` (lines 579-584): filtered delete of the header,
404 when nothing matched. -/
def delete_quotation (db : DB) (quotation_id user_id : String) :
    DB × Except HTTPError String :=
  let matched := db.quotations.filter (fun r => r.id = quotation_id ∧ r.user_id = user_id)
  let quotations' := db.quotations.filter
    (fun r => ¬ (r.id = quotation_id ∧ r.user_id = user_id))
  let db' := { db with quotations := quotations' }
  match matched with
  | [] => (db', .error ⟨404, "Quotation not found"⟩)
  | _ :: _ => (db', .ok "Quotation deleted successfully")

/-- The `payment.dict(exclude_unset=True)` update applied to one row:
`payment_status` is always set; each optional field is written only
when it was present in the request. -/
def applyPaymentUpdate (p : PaymentUpdate) (r : QuotationRow) : QuotationRow :=
  { r with
    payment_status := p.payment_status
    payment_date := p.payment_date.getD r.payment_date
    payment_amount := p.payment_amount.getD r.payment_amount
    payment_notes := p.payment_notes.getD r.payment_notes }

/-- Embedding of `update_payment_status` (lines 586-592): filtered update of the
payment fields, 404 when nothing matched.  No relation between
`payment_amount` and the quotation's `total` is checked anywhere. -/
def update_payment_status (db : DB) (quotation_id user_id : String) (p : PaymentUpdate) :
    DB × Except HTTPError QuotationRow :=
  let matched := db.quotations.filter (fun r => r.id = quotation_id ∧ r.user_id = user_id)
  let quotations' := db.quotations.map
    (fun r => if r.id = quotation_id ∧ r.user_id = user_id then applyPaymentUpdate p r else r)
  let db' := { db with quotations := quotations' }
  match matched with
  | [] => (db', .error ⟨404, "Quotation not found"⟩)
  | r :: _ => (db', .ok (applyPaymentUpdate p r))

/-! ### Reminder endpoints (lines 744-758) -/

/-- Embedding of `send_reminder`: filtered update setting `sent := true`. -/
def send_reminder (db : DB) (reminder_id user_id : String) :
    DB × Except HTTPError String :=
  let matched := db.reminders.filter (fun r => r.id = reminder_id ∧ r.user_id = user_id)
  let reminders' := db.reminders.map
    (fun r => if r.id = reminder_id ∧ r.user_id = user_id then { r with sent := true } else r)
  let db' := { db with reminders := reminders' }
  match matched with
  | [] => (db', .error ⟨404, "Reminder not found"⟩)
  | _ :: _ => (db', .ok "Reminder sent successfully")

/-- Embedding of `delete_reminder`: filtered delete, 404 when nothing matched. -/
def delete_reminder (db : DB) (reminder_id user_id : String) :
    DB × Except HTTPError String :=
  let matched := db.reminders.filter (fun r => r.id = reminder_id ∧ r.user_id = user_id)
  let reminders' := db.reminders.filter
    (fun r => ¬ (r.id = reminder_id ∧ r.user_id = user_id))
  let db' := { db with reminders := reminders' }
  match matched with
  | [] => (db', .error ⟨404, "Reminder not found"⟩)
  | _ :: _ => (db', .ok "Reminder deleted successfully")

/-! ### Payment statistics (lines 812-826) -/

/-- The response of `get_payment_statistics`. -/
structure PaymentStats where
  total_expected : Rat
  total_received : Rat
  total_pending : Rat
  overdue_count : Nat
deriving Repr, DecidableEq

/-- Python `q.get("payment_amount", 0) or q["total"]`: `None`, a missing
key and `0.0` are all falsy, so they fall back to the row's `total`. -/
def pyOrTotal (payment_amount : Option Rat) (total : Rat) : Rat :=
  match payment_amount with
  | none => total
  | some v => if v = 0 then total else v

/-- Embedding of `get_payment_statistics`: sums over the tenant's quotations. -/
def get_payment_statistics (db : DB) (user_id : String) : PaymentStats :=
  let qs := db.quotations.filter (fun r => r.user_id = user_id)
  { total_expected := (qs.map (fun r => r.total)).sum
    total_received :=
      ((qs.filter (fun r => r.payment_status = "paid")).map
        (fun r => pyOrTotal r.payment_amount r.total)).sum
    total_pending :=
      ((qs.filter (fun r => r.payment_status = "unpaid")).map (fun r => r.total)).sum
    overdue_count := (qs.filter (fun r => r.payment_status = "unpaid")).length }

/-! ### PDF generation (`generate_quotation_pdf`, lines 598-722)

The renderer is embedded as the sequence of strings handed to
`drawString` / `drawRightString`, in draw order.  Coordinates, fonts and
rules are layout plumbing with no bearing on the spec's claims about
content, truncation and formatting, so they are not tracked. -/

/-- Title, quotation number and date lines (`created_at[:10]`). -/
def pdfHeaderLines (q : QuotationRow) : List String :=
  ["FİYAT TEKLİFİ",
   "Teklif No: " ++ q.quotation_number,
   "Tarih: " ++ pyTrunc q.created_at 10]

/-- The issuer profile block; absent/empty fields are skipped
(Python truthiness on `current_user.get(...)`). -/
def pdfIssuerLines (u : UserRow) : List String :=
  ["Firma Bilgileri:"]
  ++ (if strTruthy u.company then [u.company.getD ""] else [])
  ++ (if strTruthy u.company_address then [u.company_address.getD ""] else [])
  ++ (if strTruthy u.phone then ["Tel: " ++ u.phone.getD ""] else [])

/-- The customer profile block (`customer.get(...)` truthiness). -/
def pdfCustomerLines (c : CustomerRow) : List String :=
  ["Müşteri Bilgileri:"]
  ++ (if c.name ≠ "" then [c.name] else [])
  ++ (if strTruthy c.company then [c.company.getD ""] else [])
  ++ (if strTruthy c.address then [c.address.getD ""] else [])
  ++ (if strTruthy c.phone then ["Tel: " ++ c.phone.getD ""] else [])

/-- The item-table column headers. -/
def pdfTableHeaderLines : List String :=
  ["Ürün/Hizmet", "Miktar", "Birim", "Birim Fiyat", "Toplam"]

/-- One item row: name truncated to 40 code points, quantity, unit, the
two currency cells, then an indented specifications line truncated to
60 code points when the field is truthy. -/
def pdfItemLines (it : QuotationItemRow) : List String :=
  [pyTrunc it.product_name 40,
   intRepr it.quantity,
   it.unit,
   "₺" ++ fmt2 it.unit_price,
   "₺" ++ fmt2 it.total]
  ++ (if strTruthy it.specifications
      then ["  " ++ pyTrunc (it.specifications.getD "") 60] else [])

/-- The totals block: subtotal always; the discount pair only when
`discount_amount > 0`; the tax line labeled with the rate; the grand
total always. -/
def pdfTotalsLines (q : QuotationRow) : List String :=
  ["Ara Toplam:", "₺" ++ fmt2 q.subtotal]
  ++ (if 0 < q.discount_amount then ["İndirim:", "-₺" ++ fmt2 q.discount_amount] else [])
  ++ ["KDV (" ++ intRepr q.tax_rate ++ "%):", "₺" ++ fmt2 q.tax_amount,
      "Genel Toplam:", "₺" ++ fmt2 q.total]

/-- The optional notes block (`notes[:100]`), shown when truthy. -/
def pdfNotesLines (q : QuotationRow) : List String :=
  if strTruthy q.notes then ["Notlar:", pyTrunc (q.notes.getD "") 100] else []

/-- All strings drawn on the page, in order. -/
def renderPdfLines (issuer : UserRow) (c : CustomerRow) (q : QuotationRow)
    (items : List QuotationItemRow) : List String :=
  pdfHeaderLines q
  ++ pdfIssuerLines issuer
  ++ pdfCustomerLines c
  ++ pdfTableHeaderLines
  ++ (items.map pdfItemLines).flatten
  ++ pdfTotalsLines q
  ++ pdfNotesLines q

/-- The `customers(*)` join embedded in the quotation fetch; a missing
customer gives `{}`, whose `get` calls are all falsy. -/
def joinedCustomer (db : DB) (customer_id : String) : CustomerRow :=
  match db.customers.filter (fun r => r.id = customer_id) with
  | [] => { id := "", user_id := "", name := "" }
  | c :: _ => c

/-- Embedding of `generate_quotation_pdf`: tenant-filtered fetch (404 when no row),
then rendering of the resolved quotation. -/
def generate_quotation_pdf (db : DB) (quotation_id user_id : String) (issuer : UserRow) :
    Except HTTPError (List String) :=
  match db.quotations.filter (fun r => r.id = quotation_id ∧ r.user_id = user_id) with
  | [] => .error ⟨404, "Quotation not found"⟩
  | q :: _ =>
    .ok (renderPdfLines issuer (joinedCustomer db q.customer_id) q
      (quotationItems db quotation_id))

/-! ## Helper lemmas -/

theorem digitChar_isDigit (n : Nat) : (digitChar n).isDigit = true := by
  unfold digitChar
  have h : n % 10 < 10 := Nat.mod_lt _ (by norm_num)
  generalize n % 10 = k at h
  interval_cases k <;> decide

theorem natDigits_len_of_lt (n : Nat) (h : n < 10) : (natDigits n).length = 1 := by
  rw [natDigits, if_pos h]
  rfl

theorem natDigits_len_of_ge (n : Nat) (h : 10 ≤ n) :
    (natDigits n).length = (natDigits (n / 10)).length + 1 := by
  conv_lhs => rw [natDigits]
  rw [if_neg (by omega)]
  simp

theorem natDigits_all_digit (n : Nat) : ∀ c ∈ natDigits n, c.isDigit = true := by
  induction n using Nat.strong_induction_on with
  | _ n ih =>
    rw [natDigits]
    by_cases h : n < 10
    · simp [if_pos h, digitChar_isDigit]
    · rw [if_neg h]
      intro c hc
      rcases List.mem_append.mp hc with h1 | h2
      · exact ih (n / 10) (Nat.div_lt_self (by omega) (by omega)) c h1
      · simp at h2
        simp [h2, digitChar_isDigit]

theorem natDigits_len_four (n : Nat) (h1 : 1000 ≤ n) (h2 : n ≤ 9999) :
    (natDigits n).length = 4 := by
  have e1 := natDigits_len_of_ge n (by omega)
  have e2 := natDigits_len_of_ge (n / 10) (by omega)
  have e3 := natDigits_len_of_ge (n / 10 / 10) (by omega)
  have e4 := natDigits_len_of_lt (n / 10 / 10 / 10) (by omega)
  omega

theorem pyTrunc_length_le (s : String) (n : Nat) : (pyTrunc s n).length ≤ n := by
  have : (pyTrunc s n).length = (s.data.take n).length := rfl
  rw [this, List.length_take]
  omega

/-- A string ending in a dot followed by exactly two decimal digits. -/
def TwoDecimalStr (s : String) : Prop :=
  ∃ a c₁ c₂, s = a ++ "." ++ String.mk [c₁, c₂] ∧ c₁.isDigit = true ∧ c₂.isDigit = true

theorem pad2_twoChars (n : Nat) :
    pad2 n = String.mk [digitChar (n / 10), digitChar n] := rfl

theorem fmt2_twoDecimal (q : Rat) : TwoDecimalStr (fmt2 q) := by
  refine ⟨(if q < 0 then "-" else "")
      ++ natDecimalRepr (((round (|q| * 100) : Int).toNat) / 100),
    digitChar ((((round (|q| * 100) : Int).toNat) % 100) / 10),
    digitChar (((round (|q| * 100) : Int).toNat) % 100),
    ?_, digitChar_isDigit _, digitChar_isDigit _⟩
  simp only [fmt2, pad2_twoChars, String.append_assoc]

/-- If no row passes the guard, the guarded update maps to the same list. -/
theorem map_guard_id {α : Type} (p : α → Prop) [DecidablePred p] (f : α → α)
    (rows : List α) (h : rows.filter (fun r => p r) = []) :
    rows.map (fun r => if p r then f r else r) = rows := by
  induction rows with
  | nil => rfl
  | cons a l ih =>
    rw [List.filter_cons] at h
    by_cases ha : p a
    · simp [ha] at h
    · simp only [ha, decide_eq_true_eq] at h
      simp only [List.map_cons, if_neg ha]
      rw [ih (by simpa using h)]

/-- If no row passes the guard, the guarded delete keeps the whole list. -/
theorem filter_not_id {α : Type} (p : α → Prop) [DecidablePred p]
    (rows : List α) (h : rows.filter (fun r => p r) = []) :
    rows.filter (fun r => ¬ p r) = rows := by
  rw [List.filter_eq_self]
  intro a ha
  have := List.filter_eq_nil_iff.mp h a ha
  simpa using this

/-- Rows whose id resolves to owner `A` never pass the `(id, B)` filter
of another tenant `B`. -/
theorem filter_owner_nil {α : Type} (idOf uidOf : α → String) (rows : List α)
    (rid A B : String) (hown : ∀ r ∈ rows, idOf r = rid → uidOf r = A)
    (hne : B ≠ A) :
    rows.filter (fun r => idOf r = rid ∧ uidOf r = B) = [] := by
  rw [List.filter_eq_nil_iff]
  intro r hr
  simp only [decide_eq_true_eq, not_and]
  intro hid huid
  exact hne ((huid.symm.trans (hown r hr hid)))

/-- Behaviour of `update_quotation` when the ownership filter matches nothing:
the header update touches no row, the items are untouched, and the
handler raises 404. -/
theorem update_quotation_fail_shape (db : DB) (qid uid : String) (q : QuotationCreate)
    (h : db.quotations.filter (fun r => r.id = qid ∧ r.user_id = uid) = []) :
    update_quotation db qid uid q = (db, .error ⟨404, "Quotation not found"⟩) := by
  have hmap := map_guard_id (fun r : QuotationRow => r.id = qid ∧ r.user_id = uid)
    (applyQuotationPatch q) db.quotations h
  unfold update_quotation
  rw [h, hmap]

/-- Behaviour of `update_quotation` when the ownership filter matches: the header
rows are patched, the quotation's item rows replaced wholesale. -/
theorem update_quotation_success_shape (db : DB) (qid uid : String) (q : QuotationCreate)
    (a : QuotationRow) (l : List QuotationRow)
    (h : db.quotations.filter (fun r => r.id = qid ∧ r.user_id = uid) = a :: l) :
    (update_quotation db qid uid q).1 =
      { db with
        quotations := db.quotations.map
          (fun r => if r.id = qid ∧ r.user_id = uid then applyQuotationPatch q r else r)
        quotation_items :=
          (db.quotation_items.filter (fun it => ¬ it.quotation_id = qid))
            ++ q.items.map (itemRow qid) } := by
  unfold update_quotation
  rw [h]

/-- A guarded update whose patch preserves the guard and is idempotent
is itself idempotent on lists. -/
theorem map_guard_idem {α : Type} (p : α → Prop) [DecidablePred p] (f : α → α)
    (hpf : ∀ r, p r → p (f r)) (hff : ∀ r, p r → f (f r) = f r) (l : List α) :
    (l.map (fun r => if p r then f r else r)).map (fun r => if p r then f r else r)
      = l.map (fun r => if p r then f r else r) := by
  induction l with
  | nil => rfl
  | cons a t ih =>
    simp only [List.map_cons, ih]
    by_cases ha : p a
    · rw [if_pos ha, if_pos (hpf a ha), hff a ha]
    · rw [if_neg ha, if_neg ha]

/-- A guarded update cannot empty out the guard's matches. -/
theorem filter_map_guard_ne_nil {α : Type} (p : α → Prop) [DecidablePred p] (f : α → α)
    (hpf : ∀ r, p r → p (f r)) (l : List α) (h : l.filter (fun r => p r) ≠ []) :
    (l.map (fun r => if p r then f r else r)).filter (fun r => p r) ≠ [] := by
  intro hnil
  apply h
  rw [List.filter_eq_nil_iff] at hnil ⊢
  intro a ha
  have := hnil (if p a then f a else a) (List.mem_map_of_mem _ ha)
  by_cases hp : p a
  · exact absurd (by simpa [hp] using hpf a hp) (by simpa [hp] using this)
  · simp [hp]

/-- Applying the same quotation update twice leaves the store exactly as
after the first application: recomputation causes no drift. -/
theorem update_quotation_fst_idem (db : DB) (qid uid : String) (q : QuotationCreate) :
    (update_quotation (update_quotation db qid uid q).1 qid uid q).1
      = (update_quotation db qid uid q).1 := by
  have hpf : ∀ r : QuotationRow, (r.id = qid ∧ r.user_id = uid) →
      ((applyQuotationPatch q r).id = qid ∧ (applyQuotationPatch q r).user_id = uid) :=
    fun r hr => hr
  have hff : ∀ r : QuotationRow, (r.id = qid ∧ r.user_id = uid) →
      applyQuotationPatch q (applyQuotationPatch q r) = applyQuotationPatch q r :=
    fun r _ => rfl
  cases h : db.quotations.filter (fun r => r.id = qid ∧ r.user_id = uid) with
  | nil =>
    have h1 : update_quotation db qid uid q = (db, .error ⟨404, "Quotation not found"⟩) :=
      update_quotation_fail_shape db qid uid q h
    simp only [h1]
  | cons a l =>
    have h1 := update_quotation_success_shape db qid uid q a l h
    have hne : ((update_quotation db qid uid q).1).quotations.filter
        (fun r => r.id = qid ∧ r.user_id = uid) ≠ [] := by
      rw [h1]
      exact filter_map_guard_ne_nil _ (applyQuotationPatch q) hpf db.quotations (by rw [h]; simp)
    obtain ⟨b, t, hbt⟩ := List.exists_cons_of_ne_nil hne
    have h2 := update_quotation_success_shape ((update_quotation db qid uid q).1) qid uid q b t hbt
    rw [h2, h1]
    have hq : (db.quotations.map
          (fun r => if r.id = qid ∧ r.user_id = uid then applyQuotationPatch q r else r)).map
          (fun r => if r.id = qid ∧ r.user_id = uid then applyQuotationPatch q r else r)
        = db.quotations.map
          (fun r => if r.id = qid ∧ r.user_id = uid then applyQuotationPatch q r else r) :=
      map_guard_idem _ (applyQuotationPatch q) hpf hff db.quotations
    have hkept : ((db.quotation_items.filter (fun it => ¬ it.quotation_id = qid))
          ++ q.items.map (itemRow qid)).filter (fun it => ¬ it.quotation_id = qid)
        = db.quotation_items.filter (fun it => ¬ it.quotation_id = qid) := by
      rw [List.filter_append]
      have hl : (db.quotation_items.filter (fun it => ¬ it.quotation_id = qid)).filter
          (fun it => ¬ it.quotation_id = qid)
          = db.quotation_items.filter (fun it => ¬ it.quotation_id = qid) := by
        rw [List.filter_eq_self]
        intro x hx
        exact (List.mem_filter.mp hx).2
      have hr : (q.items.map (itemRow qid)).filter (fun it => ¬ it.quotation_id = qid) = [] := by
        rw [List.filter_eq_nil_iff]
        intro x hx
        obtain ⟨y, _, rfl⟩ := List.mem_map.mp hx
        simp [itemRow]
      rw [hl, hr, List.append_nil]
    simp only [hq, hkept]

/-- Behaviour of `update_quotation` on a successful match, with the response. -/
theorem update_quotation_success_full (db : DB) (qid uid : String) (q : QuotationCreate)
    (a : QuotationRow) (l : List QuotationRow)
    (h : db.quotations.filter (fun r => r.id = qid ∧ r.user_id = uid) = a :: l) :
    update_quotation db qid uid q =
      (let D : DB :=
        { db with
          quotations := db.quotations.map
            (fun r => if r.id = qid ∧ r.user_id = uid then applyQuotationPatch q r else r)
          quotation_items :=
            (db.quotation_items.filter (fun it => ¬ it.quotation_id = qid))
              ++ q.items.map (itemRow qid) }
       (D, .ok (quotationItems D qid))) := by
  unfold update_quotation
  rw [h]

/-! ## Example data used by the concrete witnesses -/

/-- A fixed clock reading for the nondeterministic inputs. -/
def exDatetime : PyDatetime := ⟨2025, 1, 1, 0, 0, 0⟩

/-- The spec's example item with line total 100. -/
def exItem100 : QuotationItem :=
  { product_name := "Ürün A", quantity := 1, unit_price := 100, total := 100 }

/-- The spec's example item with line total 50. -/
def exItem50 : QuotationItem :=
  { product_name := "Ürün B", quantity := 1, unit_price := 50, total := 50 }

/-- A persisted quotation row owned by tenant `u1`. -/
def exQuotRow : QuotationRow :=
  { id := "q1", user_id := "u1", customer_id := "c1", quotation_number := "Q-X"
    subtotal := 0, discount_amount := 0, tax_rate := 20, tax_amount := 0, total := 0
    notes := none, status := "pending", payment_status := "unpaid" }

/-- A store holding just that quotation. -/
def exDB1 : DB := { quotations := [exQuotRow] }

/-- The spec's example create/update request: items with totals 100 and
50, no discount, 20% tax. -/
def exReq : QuotationCreate := ⟨"c1", [exItem100, exItem50], 0, 20, none⟩

/-! ## Claims -/

/-- C1: every created or updated quotation is persisted with
`subtotal = Σ items[i].total`,
`tax_amount = (subtotal − discount_amount) · tax_rate / 100` and
`total = (subtotal − discount_amount) + tax_amount`; the derived
amounts are functions of the submitted items, discount and tax rate
alone (the request type carries no amount fields a caller could
supply); and the spec's example — items with totals 100 and 50,
discount 0, rate 20 — yields subtotal 150, tax 30, total 180. -/
theorem C1_derived_amounts_recomputed :
    (∀ (db : DB) (uid : String) (q : QuotationCreate) (newId : String)
        (t : PyDatetime) (rand : Nat) (created : String),
      (create_quotation db uid q newId t rand created).2.subtotal
          = (q.items.map (fun it => it.total)).sum
      ∧ (create_quotation db uid q newId t rand created).2.tax_amount
          = ((create_quotation db uid q newId t rand created).2.subtotal
              - q.discount_amount) * (q.tax_rate : Rat) / 100
      ∧ (create_quotation db uid q newId t rand created).2.total
          = ((create_quotation db uid q newId t rand created).2.subtotal
              - q.discount_amount)
            + (create_quotation db uid q newId t rand created).2.tax_amount
      ∧ (create_quotation db uid q newId t rand created).1.quotations
          = db.quotations ++ [(create_quotation db uid q newId t rand created).2])
    ∧ (∀ (db : DB) (qid uid : String) (q : QuotationCreate),
        ∀ r ∈ (update_quotation db qid uid q).1.quotations,
          r.id = qid → r.user_id = uid →
            r.subtotal = (q.items.map (fun it => it.total)).sum
            ∧ r.tax_amount = (r.subtotal - q.discount_amount) * (q.tax_rate : Rat) / 100
            ∧ r.total = (r.subtotal - q.discount_amount) + r.tax_amount)
    ∧ (∀ (db db' : DB) (uid uid' : String) (q q' : QuotationCreate)
        (i i' : String) (t t' : PyDatetime) (rd rd' : Nat) (c c' : String),
        q.items = q'.items → q.discount_amount = q'.discount_amount →
        q.tax_rate = q'.tax_rate →
          (create_quotation db uid q i t rd c).2.subtotal
              = (create_quotation db' uid' q' i' t' rd' c').2.subtotal
          ∧ (create_quotation db uid q i t rd c).2.tax_amount
              = (create_quotation db' uid' q' i' t' rd' c').2.tax_amount
          ∧ (create_quotation db uid q i t rd c).2.total
              = (create_quotation db' uid' q' i' t' rd' c').2.total)
    ∧ ((create_quotation {} "u1" exReq "q1" exDatetime 1234 "2025-01-01").2.subtotal = 150
      ∧ (create_quotation {} "u1" exReq "q1" exDatetime 1234 "2025-01-01").2.tax_amount = 30
      ∧ (create_quotation {} "u1" exReq "q1" exDatetime 1234 "2025-01-01").2.total = 180) := by
  refine ⟨?_, ?_, ?_, ?_⟩
  · intro db uid q newId t rand created
    refine ⟨rfl, ?_, ?_, rfl⟩
    · show ((q.items.map (fun it => it.total)).sum - q.discount_amount) * ((q.tax_rate : Rat) / 100)
        = ((q.items.map (fun it => it.total)).sum - q.discount_amount) * (q.tax_rate : Rat) / 100
      ring
    · rfl
  · intro db qid uid q r hr hid huser
    have hq : (update_quotation db qid uid q).1.quotations
        = db.quotations.map
          (fun r => if r.id = qid ∧ r.user_id = uid then applyQuotationPatch q r else r) := by
      cases h : db.quotations.filter (fun r => r.id = qid ∧ r.user_id = uid) with
      | nil =>
        rw [update_quotation_fail_shape db qid uid q h]
        exact (map_guard_id _ (applyQuotationPatch q) db.quotations h).symm
      | cons a l => rw [update_quotation_success_shape db qid uid q a l h]
    rw [hq] at hr
    obtain ⟨r₀, hr₀, rfl⟩ := List.mem_map.mp hr
    by_cases hp : r₀.id = qid ∧ r₀.user_id = uid
    · rw [if_pos hp]
      refine ⟨rfl, ?_, rfl⟩
      show ((q.items.map (fun it => it.total)).sum - q.discount_amount) * ((q.tax_rate : Rat) / 100)
        = ((q.items.map (fun it => it.total)).sum - q.discount_amount) * (q.tax_rate : Rat) / 100
      ring
    · rw [if_neg hp] at hid huser ⊢
      exact absurd ⟨hid, huser⟩ hp
  · intro db db' uid uid' q q' i i' t t' rd rd' c c' h1 h2 h3
    refine ⟨?_, ?_, ?_⟩ <;>
      simp only [create_quotation, quotationAmounts, h1, h2, h3]
  · refine ⟨?_, ?_, ?_⟩ <;> norm_num [create_quotation, quotationAmounts, exReq,
      exItem100, exItem50]

/-- C1 witness: the update branch applied to a concrete store. -/
theorem C1_witness :
    (applyQuotationPatch exReq exQuotRow
        ∈ (update_quotation exDB1 "q1" "u1" exReq).1.quotations)
    ∧ ((applyQuotationPatch exReq exQuotRow).subtotal
          = (exReq.items.map (fun it => it.total)).sum
      ∧ (applyQuotationPatch exReq exQuotRow).tax_amount
          = ((applyQuotationPatch exReq exQuotRow).subtotal
              - exReq.discount_amount) * (exReq.tax_rate : Rat) / 100
      ∧ (applyQuotationPatch exReq exQuotRow).total
          = ((applyQuotationPatch exReq exQuotRow).subtotal
              - exReq.discount_amount)
            + (applyQuotationPatch exReq exQuotRow).tax_amount) := by
  have hrows : (update_quotation exDB1 "q1" "u1" exReq).1.quotations
      = [applyQuotationPatch exReq exQuotRow] := by
    rw [update_quotation_success_shape exDB1 "q1" "u1" exReq exQuotRow [] (by decide)]
    show List.map _ [exQuotRow] = _
    rw [List.map_cons, List.map_nil,
      if_pos (⟨rfl, rfl⟩ : exQuotRow.id = "q1" ∧ exQuotRow.user_id = "u1")]
  have hmem : applyQuotationPatch exReq exQuotRow
      ∈ (update_quotation exDB1 "q1" "u1" exReq).1.quotations := by
    rw [hrows]
    exact List.mem_singleton.mpr rfl
  exact ⟨hmem, C1_derived_amounts_recomputed.2.1 exDB1 "q1" "u1" exReq
    (applyQuotationPatch exReq exQuotRow) hmem rfl rfl⟩

/-- C2: the calculator satisfies
`total = (subtotal − d) + (subtotal − d) · r / 100` as an exact `Rat`
identity, and recomputing the amounts by re-running the same update any
number of times (e.g. 1000 cycles) leaves the persisted state — and so
every derived value — exactly as after the first run: no drift. -/
theorem C2_exact_total_no_drift :
    (∀ (items : List QuotationItem) (d : Rat) (tr : Int),
        (quotationAmounts items d tr).2.2.2
          = ((quotationAmounts items d tr).1 - d)
            + ((quotationAmounts items d tr).1 - d) * (tr : Rat) / 100)
    ∧ (∀ (db : DB) (qid uid : String) (q : QuotationCreate) (n : Nat), 1 ≤ n →
        (fun s => (update_quotation s qid uid q).1)^[n] db
          = (update_quotation db qid uid q).1) := by
  constructor
  · intro items d tr
    show ((items.map (fun it => it.total)).sum - d)
        + ((items.map (fun it => it.total)).sum - d) * ((tr : Rat) / 100)
      = ((items.map (fun it => it.total)).sum - d)
        + ((items.map (fun it => it.total)).sum - d) * (tr : Rat) / 100
    ring
  · intro db qid uid q n hn
    induction n, hn using Nat.le_induction with
    | base => rw [Function.iterate_one]
    | succ n hn ih =>
      rw [Function.iterate_succ_apply', ih]
      exact update_quotation_fst_idem db qid uid q

/-- C2 witness: 1000 recomputation cycles on a concrete store. -/
theorem C2_witness :
    1 ≤ 1000
    ∧ (fun s => (update_quotation s "q1" "u1" exReq).1)^[1000] exDB1
        = (update_quotation exDB1 "q1" "u1" exReq).1 :=
  ⟨by decide, C2_exact_total_no_drift.2 exDB1 "q1" "u1" exReq 1000 (by decide)⟩

/-- C3: a successful quotation update replaces the stored item set
wholesale: querying the quotation's items afterwards returns exactly
the snapshots of the submitted list, in insertion order, and the
endpoint's response body carries that same list. -/
theorem C3_update_replaces_items (db : DB) (qid uid : String) (q : QuotationCreate)
    (h : db.quotations.filter (fun r => r.id = qid ∧ r.user_id = uid) ≠ []) :
    quotationItems (update_quotation db qid uid q).1 qid = q.items.map (itemRow qid)
    ∧ (update_quotation db qid uid q).2 = .ok (q.items.map (itemRow qid)) := by
  obtain ⟨a, l, hcons⟩ := List.exists_cons_of_ne_nil h
  have hfull := update_quotation_success_full db qid uid q a l hcons
  have hitems : quotationItems (update_quotation db qid uid q).1 qid
      = q.items.map (itemRow qid) := by
    rw [hfull]
    show ((db.quotation_items.filter (fun it => ¬ it.quotation_id = qid))
        ++ q.items.map (itemRow qid)).filter (fun it => it.quotation_id = qid)
      = q.items.map (itemRow qid)
    rw [List.filter_append]
    have hl : (db.quotation_items.filter (fun it => ¬ it.quotation_id = qid)).filter
        (fun it => it.quotation_id = qid) = [] := by
      rw [List.filter_eq_nil_iff]
      intro x hx
      have := (List.mem_filter.mp hx).2
      simpa using this
    have hr : (q.items.map (itemRow qid)).filter (fun it => it.quotation_id = qid)
        = q.items.map (itemRow qid) := by
      rw [List.filter_eq_self]
      intro x hx
      obtain ⟨y, _, rfl⟩ := List.mem_map.mp hx
      simp [itemRow]
    rw [hl, hr, List.nil_append]
  refine ⟨hitems, ?_⟩
  have h2 : (update_quotation db qid uid q).2
      = Except.ok (quotationItems (update_quotation db qid uid q).1 qid) := by
    rw [hfull]
  rw [h2, hitems]

/-- C3 witness: replacing the single stored quotation's items. -/
theorem C3_witness :
    (exDB1.quotations.filter (fun r => r.id = "q1" ∧ r.user_id = "u1") ≠ [])
    ∧ quotationItems (update_quotation exDB1 "q1" "u1" exReq).1 "q1"
        = exReq.items.map (itemRow "q1") :=
  ⟨by decide, (C3_update_replaces_items exDB1 "q1" "u1" exReq (by decide)).1⟩

/-- C4: when every row carrying the requested identifier belongs to
tenant `A` and a different authenticated tenant `B` asks for it, every
read, update and delete across customers, products, quotations and
reminders answers with the same `404` "not found" error a nonexistent
resource would produce — never a forbidden response, and never any of
the resource's data — and the mutating operations leave the store
untouched. -/
theorem C4_cross_tenant_not_found (db : DB) (A B cid pid qid rid : String)
    (c : CustomerCreate) (p : ProductCreate) (qc : QuotationCreate)
    (pu : PaymentUpdate) (issuer : UserRow)
    (hne : B ≠ A)
    (hoc : ∀ r ∈ db.customers, r.id = cid → r.user_id = A)
    (hop : ∀ r ∈ db.products, r.id = pid → r.user_id = A)
    (hoq : ∀ r ∈ db.quotations, r.id = qid → r.user_id = A)
    (hor : ∀ r ∈ db.reminders, r.id = rid → r.user_id = A) :
    get_customer db cid B = .error ⟨404, "Customer not found"⟩
    ∧ update_customer db cid B c = (db, .error ⟨404, "Customer not found"⟩)
    ∧ delete_customer db cid B = (db, .error ⟨404, "Customer not found"⟩)
    ∧ get_product db pid B = .error ⟨404, "Product not found"⟩
    ∧ update_product db pid B p = (db, .error ⟨404, "Product not found"⟩)
    ∧ delete_product db pid B = (db, .error ⟨404, "Product not found"⟩)
    ∧ get_quotation db qid B = .error ⟨404, "Quotation not found"⟩
    ∧ update_quotation db qid B qc = (db, .error ⟨404, "Quotation not found"⟩)
    ∧ delete_quotation db qid B = (db, .error ⟨404, "Quotation not found"⟩)
    ∧ update_payment_status db qid B pu = (db, .error ⟨404, "Quotation not found"⟩)
    ∧ generate_quotation_pdf db qid B issuer = .error ⟨404, "Quotation not found"⟩
    ∧ send_reminder db rid B = (db, .error ⟨404, "Reminder not found"⟩)
    ∧ delete_reminder db rid B = (db, .error ⟨404, "Reminder not found"⟩) := by
  have hc : db.customers.filter (fun r => r.id = cid ∧ r.user_id = B) = [] :=
    filter_owner_nil (fun r => r.id) (fun r => r.user_id) db.customers cid A B hoc hne
  have hp : db.products.filter (fun r => r.id = pid ∧ r.user_id = B) = [] :=
    filter_owner_nil (fun r => r.id) (fun r => r.user_id) db.products pid A B hop hne
  have hq : db.quotations.filter (fun r => r.id = qid ∧ r.user_id = B) = [] :=
    filter_owner_nil (fun r => r.id) (fun r => r.user_id) db.quotations qid A B hoq hne
  have hr : db.reminders.filter (fun r => r.id = rid ∧ r.user_id = B) = [] :=
    filter_owner_nil (fun r => r.id) (fun r => r.user_id) db.reminders rid A B hor hne
  have hcm : db.customers.map
      (fun r => if r.id = cid ∧ r.user_id = B then applyCustomerPatch c r else r)
      = db.customers := map_guard_id _ _ _ hc
  have hcf : db.customers.filter (fun r => ¬ (r.id = cid ∧ r.user_id = B))
      = db.customers := filter_not_id _ _ hc
  have hpm : db.products.map
      (fun r => if r.id = pid ∧ r.user_id = B then applyProductPatch p r else r)
      = db.products := map_guard_id _ _ _ hp
  have hpf : db.products.filter (fun r => ¬ (r.id = pid ∧ r.user_id = B))
      = db.products := filter_not_id _ _ hp
  have hqf : db.quotations.filter (fun r => ¬ (r.id = qid ∧ r.user_id = B))
      = db.quotations := filter_not_id _ _ hq
  have hqm : db.quotations.map
      (fun r => if r.id = qid ∧ r.user_id = B then applyPaymentUpdate pu r else r)
      = db.quotations := map_guard_id _ _ _ hq
  have hrm : db.reminders.map
      (fun r => if r.id = rid ∧ r.user_id = B then { r with sent := true } else r)
      = db.reminders := map_guard_id _ _ _ hr
  have hrf : db.reminders.filter (fun r => ¬ (r.id = rid ∧ r.user_id = B))
      = db.reminders := filter_not_id _ _ hr
  refine ⟨?_, ?_, ?_, ?_, ?_, ?_, ?_, ?_, ?_, ?_, ?_, ?_, ?_⟩
  · unfold get_customer
    rw [hc]
  · unfold update_customer
    rw [hc, hcm]
  · unfold delete_customer
    rw [hc, hcf]
  · unfold get_product
    rw [hp]
  · unfold update_product
    rw [hp, hpm]
  · unfold delete_product
    rw [hp, hpf]
  · unfold get_quotation
    rw [hq]
  · exact update_quotation_fail_shape db qid B qc hq
  · unfold delete_quotation
    rw [hq, hqf]
  · unfold update_payment_status
    rw [hq, hqm]
  · unfold generate_quotation_pdf
    rw [hq]
  · unfold send_reminder
    rw [hr, hrm]
  · unfold delete_reminder
    rw [hr, hrf]

/-- A customer owned by tenant `uA`. -/
def exCust : CustomerRow := { id := "c9", user_id := "uA", name := "Acme" }

/-- A product owned by tenant `uA`. -/
def exProd : ProductRow := { id := "p9", user_id := "uA", name := "Widget", price := 10 }

/-- A quotation owned by tenant `uA`. -/
def exQuotA : QuotationRow :=
  { id := "q9", user_id := "uA", customer_id := "c9", quotation_number := "Q-Y"
    subtotal := 100, discount_amount := 0, tax_rate := 20, tax_amount := 20, total := 120
    notes := none, status := "pending", payment_status := "unpaid" }

/-- A reminder owned by tenant `uA`. -/
def exRem : ReminderRow :=
  { id := "r9", user_id := "uA", quotation_id := "q9"
    reminder_date := "2025-02-01", message := "Takip" }

/-- A store where every resource belongs to tenant `uA`. -/
def exDB4 : DB :=
  { customers := [exCust], products := [exProd]
    quotations := [exQuotA], reminders := [exRem] }

/-- An issuer profile for the PDF endpoint. -/
def exIssuer : UserRow :=
  { id := "uB", email := "b@example.com", password_hash := "h", full_name := "B" }

/-- C4 witness: tenant `uB` probing tenant `uA`'s resources. -/
theorem C4_witness :
    ("uB" : String) ≠ "uA"
    ∧ get_customer exDB4 "c9" "uB" = .error ⟨404, "Customer not found"⟩
    ∧ delete_quotation exDB4 "q9" "uB" = (exDB4, .error ⟨404, "Quotation not found"⟩)
    ∧ delete_reminder exDB4 "r9" "uB" = (exDB4, .error ⟨404, "Reminder not found"⟩) := by
  have h := C4_cross_tenant_not_found exDB4 "uA" "uB" "c9" "p9" "q9" "r9"
    { name := "x" } { name := "x", price := 1 } exReq { payment_status := "paid" } exIssuer
    (by decide) (by decide) (by decide) (by decide) (by decide)
  exact ⟨by decide, h.1, h.2.2.2.2.2.2.2.2.1, h.2.2.2.2.2.2.2.2.2.2.2.2⟩

/-- A create request whose item list is empty. -/
def exEmptyReq : QuotationCreate := ⟨"c1", [], 0, 20, none⟩

/-- C5 counterexample: a create request with an empty item list is not
rejected — `create_quotation` persists a quotation header for it (and
its derived subtotal is 0), contradicting the claim that such a request
is rejected with nothing persisted. -/
theorem C5_counterexample :
    (create_quotation {} "u1" exEmptyReq "q1" exDatetime 1234 "2025-01-01").1.quotations ≠ []
    ∧ (create_quotation {} "u1" exEmptyReq "q1" exDatetime 1234 "2025-01-01").1.quotations.length = 1
    ∧ (create_quotation {} "u1" exEmptyReq "q1" exDatetime 1234
        "2025-01-01").2.subtotal = 0 := by
  refine ⟨?_, rfl, rfl⟩
  intro h
  exact absurd (congrArg List.length h) (by decide)

/-- C5 (amended): creation requires a customer identifier, but an empty
item list is not rejected: the handler persists a quotation header whose
subtotal is 0 (the remaining amounts derived from discount and tax rate
alone) and inserts no item rows. -/
theorem C5_amended_empty_items_accepted (db : DB) (uid cust : String) (d : Rat)
    (tr : Int) (notes : Option String) (newId : String) (t : PyDatetime)
    (rand : Nat) (ca : String) :
    (create_quotation db uid ⟨cust, [], d, tr, notes⟩ newId t rand ca).1.quotations
        = db.quotations
          ++ [(create_quotation db uid ⟨cust, [], d, tr, notes⟩ newId t rand ca).2]
    ∧ (create_quotation db uid ⟨cust, [], d, tr, notes⟩ newId t rand ca).2.subtotal = 0
    ∧ (create_quotation db uid ⟨cust, [], d, tr, notes⟩ newId t rand ca).2.customer_id = cust
    ∧ (create_quotation db uid ⟨cust, [], d, tr, notes⟩ newId t rand ca).1.quotation_items
        = db.quotation_items := by
  refine ⟨rfl, rfl, rfl, ?_⟩
  show db.quotation_items ++ List.map (itemRow newId) [] = db.quotation_items
  simp

/-- A quotation row with every payment field blanked: two rows agree
under this map exactly when they agree outside the payment fields. -/
def erasePayment (r : QuotationRow) : QuotationRow :=
  { r with
    payment_status := ""
    payment_date := none
    payment_amount := none
    payment_notes := none }

/-- C6: a payment update can change nothing but the four payment fields
— every quotation row agrees with its pre-update self once the payment
fields are blanked, every other table is untouched — and acceptance
depends only on the row resolving under the tenant scope, never on the
submitted `payment_amount` (the statement holds for every
`PaymentUpdate` whatsoever). -/
theorem C6_payment_update_frame (db : DB) (qid uid : String) (p : PaymentUpdate) :
    (update_payment_status db qid uid p).1.quotations.map erasePayment
        = db.quotations.map erasePayment
    ∧ (update_payment_status db qid uid p).1.users = db.users
    ∧ (update_payment_status db qid uid p).1.customers = db.customers
    ∧ (update_payment_status db qid uid p).1.products = db.products
    ∧ (update_payment_status db qid uid p).1.quotation_items = db.quotation_items
    ∧ (update_payment_status db qid uid p).1.reminders = db.reminders
    ∧ ((update_payment_status db qid uid p).2 = .error ⟨404, "Quotation not found"⟩
        ↔ db.quotations.filter (fun r => r.id = qid ∧ r.user_id = uid) = []) := by
  have h1 : (update_payment_status db qid uid p).1
      = { db with quotations := (db.quotations.map
          (fun r => if r.id = qid ∧ r.user_id = uid then applyPaymentUpdate p r else r)) } := by
    unfold update_payment_status
    cases h : db.quotations.filter (fun r => r.id = qid ∧ r.user_id = uid) with
    | nil => rfl
    | cons a l => rfl
  have hfun : (erasePayment ∘ fun r =>
      if r.id = qid ∧ r.user_id = uid then applyPaymentUpdate p r else r) = erasePayment := by
    funext r
    by_cases hp : r.id = qid ∧ r.user_id = uid
    · simp only [Function.comp_apply, if_pos hp]
      rfl
    · simp only [Function.comp_apply, if_neg hp]
  refine ⟨?_, ?_, ?_, ?_, ?_, ?_, ?_⟩
  · rw [h1]
    show (db.quotations.map _).map erasePayment = _
    rw [List.map_map, hfun]
  · rw [h1]
  · rw [h1]
  · rw [h1]
  · rw [h1]
  · rw [h1]
  · unfold update_payment_status
    cases h : db.quotations.filter (fun r => r.id = qid ∧ r.user_id = uid) with
    | nil => simp [h]
    | cons a l => simp [h]

/-- C7: registering with an email an existing user already holds is
rejected with the duplicate-email conflict error and leaves the user
table — indeed the whole store — unchanged. -/
theorem C7_duplicate_email_conflict (db : DB) (u : UserCreate) (newId hashed : String)
    (h : db.users.filter (fun r => r.email = u.email) ≠ []) :
    register db u newId hashed = (db, .error ⟨400, "Email already registered"⟩) := by
  unfold register
  rw [if_neg h]

/-- A registered user. -/
def exUser : UserRow :=
  { id := "u1", email := "a@example.com", password_hash := "h", full_name := "Ali" }

/-- A store holding that user. -/
def exDB7 : DB := { users := [exUser] }

/-- C7 witness: re-registering `a@example.com`. -/
theorem C7_witness :
    exDB7.users.filter (fun r => r.email = "a@example.com") ≠ []
    ∧ register exDB7 ⟨"a@example.com", "pw", "Ali 2"⟩ "u2" "h2"
        = (exDB7, .error ⟨400, "Email already registered"⟩) :=
  ⟨by decide, C7_duplicate_email_conflict exDB7 ⟨"a@example.com", "pw", "Ali 2"⟩
    "u2" "h2" (by decide)⟩

/-- Two strings whose first characters differ are different, however
the second one continues. -/
theorem ne_append_of_head_ne (c : Char) (t : List Char) (d : Char) (u : List Char)
    (s : String) (hne : c ≠ d) : String.mk (c :: t) ≠ String.mk (d :: u) ++ s := by
  intro he
  have h2 : (String.mk (c :: t)).data.head? = (String.mk (d :: u) ++ s).data.head? := by
    rw [he]
  rw [String.data_append] at h2
  simp only [List.head?] at h2
  exact hne (Option.some.inj h2)

/-- C8: rendered quotation documents truncate every long text field to
its fixed bound — the item-name cell to 40 characters, the indented
specifications line to 60 (62 with its two-space indent), the notes
line to 100 —, show the discount line exactly when `discount_amount`
is positive while the subtotal line, the tax line labeled with the
rate, and the grand-total line always appear (and every totals line
reaches the full page output), and print every currency value as the
`₺` symbol followed by a number with exactly two decimal places. -/
theorem C8_render_layout (it : QuotationItemRow) (q : QuotationRow) (issuer : UserRow)
    (c : CustomerRow) (items : List QuotationItemRow) :
    (pdfItemLines it).head? = some (pyTrunc it.product_name 40)
    ∧ (pyTrunc it.product_name 40).length ≤ 40
    ∧ (strTruthy it.specifications = true →
        (pdfItemLines it).getLast? = some ("  " ++ pyTrunc (it.specifications.getD "") 60)
        ∧ ("  " ++ pyTrunc (it.specifications.getD "") 60).length ≤ 62)
    ∧ (strTruthy q.notes = true →
        pdfNotesLines q = ["Notlar:", pyTrunc (q.notes.getD "") 100]
        ∧ (pyTrunc (q.notes.getD "") 100).length ≤ 100)
    ∧ ("İndirim:" ∈ pdfTotalsLines q ↔ 0 < q.discount_amount)
    ∧ ("Ara Toplam:" ∈ pdfTotalsLines q
      ∧ "₺" ++ fmt2 q.subtotal ∈ pdfTotalsLines q
      ∧ ("KDV (" ++ intRepr q.tax_rate ++ "%):") ∈ pdfTotalsLines q
      ∧ "₺" ++ fmt2 q.tax_amount ∈ pdfTotalsLines q
      ∧ "Genel Toplam:" ∈ pdfTotalsLines q
      ∧ "₺" ++ fmt2 q.total ∈ pdfTotalsLines q)
    ∧ (∀ s ∈ pdfTotalsLines q, s ∈ renderPdfLines issuer c q items)
    ∧ (∀ v : Rat, TwoDecimalStr (fmt2 v)) := by
  refine ⟨rfl, pyTrunc_length_le _ _, ?_, ?_, ?_, ?_, ?_, fun v => fmt2_twoDecimal v⟩
  · intro h
    unfold pdfItemLines
    rw [if_pos h]
    refine ⟨List.getLast?_concat _, ?_⟩
    rw [String.length_append]
    have h60 := pyTrunc_length_le (it.specifications.getD "") 60
    have h2 : ("  " : String).length = 2 := rfl
    omega
  · intro h
    unfold pdfNotesLines
    rw [if_pos h]
    exact ⟨rfl, pyTrunc_length_le _ _⟩
  · constructor
    · intro hmem
      by_contra hd
      unfold pdfTotalsLines at hmem
      rw [if_neg hd] at hmem
      simp only [List.nil_append, List.cons_append, List.mem_cons,
        List.not_mem_nil, List.append_nil, or_false] at hmem
      rcases hmem with h | h | h | h | h | h
      · exact absurd h (by decide)
      · exact (ne_append_of_head_ne 'İ' ['n','d','i','r','i','m',':'] '₺' []
          (fmt2 q.subtotal) (by decide)) h
      · rw [String.append_assoc] at h
        exact (ne_append_of_head_ne 'İ' ['n','d','i','r','i','m',':'] 'K' ['D','V',' ','(']
          (intRepr q.tax_rate ++ "%):") (by decide)) h
      · exact (ne_append_of_head_ne 'İ' ['n','d','i','r','i','m',':'] '₺' []
          (fmt2 q.tax_amount) (by decide)) h
      · exact absurd h (by decide)
      · exact (ne_append_of_head_ne 'İ' ['n','d','i','r','i','m',':'] '₺' []
          (fmt2 q.total) (by decide)) h
    · intro hd
      unfold pdfTotalsLines
      rw [if_pos hd]
      simp
  · by_cases hd : 0 < q.discount_amount <;> simp [pdfTotalsLines, hd]
  · intro s hs
    simp only [renderPdfLines, List.mem_append]
    tauto

/-- An item row whose name and specifications exceed their bounds. -/
def exItemLong : QuotationItemRow :=
  { quotation_id := "q1"
    product_name := "Endüstriyel çelik konstrüksiyon platform sistemi, galvaniz kaplama"
    specifications := some
      "Yük kapasitesi 5000 kg, TSE belgeli, korozyon dayanımlı kaplama, montaj dahil"
    quantity := 2
    unit := "adet"
    unit_price := 10
    total := 20 }

/-- A quotation row whose notes exceed 100 characters. -/
def exQuotLong : QuotationRow :=
  { id := "q1", user_id := "u1", customer_id := "c1", quotation_number := "Q-Z"
    subtotal := 100, discount_amount := 5, tax_rate := 20, tax_amount := 19, total := 114
    notes := some (String.mk (List.replicate 120 'n'))
    status := "pending", payment_status := "unpaid" }

/-- C8 witness: rendering the oversized item and notes. -/
theorem C8_witness :
    strTruthy exItemLong.specifications = true
    ∧ ((pdfItemLines exItemLong).getLast?
          = some ("  " ++ pyTrunc (exItemLong.specifications.getD "") 60)
        ∧ ("  " ++ pyTrunc (exItemLong.specifications.getD "") 60).length ≤ 62)
    ∧ strTruthy exQuotLong.notes = true
    ∧ (pdfNotesLines exQuotLong = ["Notlar:", pyTrunc (exQuotLong.notes.getD "") 100]
        ∧ (pyTrunc (exQuotLong.notes.getD "") 100).length ≤ 100) := by
  have h := C8_render_layout exItemLong exQuotLong exIssuer exCust []
  exact ⟨by decide, h.2.2.1 (by decide), by decide, h.2.2.2.1 (by decide)⟩

theorem pad2_all_digit (n : Nat) : ∀ c ∈ (pad2 n).data, c.isDigit = true := by
  intro c hc
  simp only [pad2, List.mem_cons, List.not_mem_nil, or_false] at hc
  rcases hc with rfl | rfl <;> exact digitChar_isDigit _

theorem pad4_all_digit (n : Nat) : ∀ c ∈ (pad4 n).data, c.isDigit = true := by
  intro c hc
  simp only [pad4, List.mem_cons, List.not_mem_nil, or_false] at hc
  rcases hc with rfl | rfl | rfl | rfl <;> exact digitChar_isDigit _

theorem strftime_all_digit (t : PyDatetime) :
    ∀ c ∈ (strftimeYmdHMS t).data, c.isDigit = true := by
  intro c hc
  simp only [strftimeYmdHMS, String.data_append, List.mem_append] at hc
  rcases hc with ((((h | h) | h) | h) | h) | h
  · exact pad4_all_digit _ _ h
  all_goals exact pad2_all_digit _ _ h

/-- C9: every quotation number assigned at creation has the shape
`Q-<14-digit timestamp>-<4-digit random>` — the timestamp is the
zero-padded `%Y%m%d%H%M%S` rendering (14 digit characters), and
`random.randint(1000, 9999)` guarantees the trailing part is a number
of exactly four digits — and the assigned number never consults the
store, so no uniqueness or collision check is performed. -/
theorem C9_quotation_number_format (t : PyDatetime) (r : Nat)
    (h1 : 1000 ≤ r) (h2 : r ≤ 9999) :
    generate_quotation_number t r
        = "Q-" ++ strftimeYmdHMS t ++ "-" ++ natDecimalRepr r
    ∧ (strftimeYmdHMS t).length = 14
    ∧ (∀ c ∈ (strftimeYmdHMS t).data, c.isDigit = true)
    ∧ (natDecimalRepr r).length = 4
    ∧ (∀ c ∈ (natDecimalRepr r).data, c.isDigit = true)
    ∧ (∀ (db : DB) (uid : String) (q : QuotationCreate) (i ca : String),
        (create_quotation db uid q i t r ca).2.quotation_number
          = generate_quotation_number t r) := by
  refine ⟨rfl, ?_, strftime_all_digit t, ?_, ?_, fun db uid q i ca => rfl⟩
  · simp only [strftimeYmdHMS, String.length_append]
    rfl
  · show (natDigits r).length = 4
    exact natDigits_len_four r h1 h2
  · intro c hc
    exact natDigits_all_digit r c hc

/-- C9 witness: a concrete clock reading and RNG draw. -/
theorem C9_witness :
    1000 ≤ 1234 ∧ 1234 ≤ 9999
    ∧ ((strftimeYmdHMS exDatetime).length = 14
      ∧ (natDecimalRepr 1234).length = 4
      ∧ generate_quotation_number exDatetime 1234
          = "Q-" ++ strftimeYmdHMS exDatetime ++ "-" ++ natDecimalRepr 1234) := by
  have h := C9_quotation_number_format exDatetime 1234 (by decide) (by decide)
  exact ⟨by decide, by decide, h.2.1, h.2.2.2.1, h.1⟩

/-- Summing a projection over a filtered list equals summing the
projection guarded by the filter's predicate over the whole list. -/
theorem sum_filter_eq_sum_map_ite {α : Type} (p : α → Prop) [DecidablePred p]
    (f : α → Rat) (l : List α) :
    ((l.filter (fun r => p r)).map f).sum
      = (l.map (fun r => if p r then f r else 0)).sum := by
  induction l with
  | nil => rfl
  | cons a t ih =>
    by_cases h : p a <;>
      simp [List.filter_cons, h, ih]

/-- C10: the payment statistics sum every quotation's `total` into
`total_expected` regardless of payment status; `total_received` adds,
for each quotation marked `paid`, its `payment_amount` when that is
present and nonzero and otherwise the full `total` (a recorded 0 falls
back to the total); `total_pending` and `overdue_count` range over
exactly the `unpaid` quotations; and a quotation whose status is
neither `paid` nor `unpaid` raises `total_expected` alone. -/
theorem C10_payment_statistics (db : DB) (uid : String) :
    (get_payment_statistics db uid).total_expected
        = ((db.quotations.filter (fun r => r.user_id = uid)).map (fun r => r.total)).sum
    ∧ (get_payment_statistics db uid).total_received
        = ((db.quotations.filter (fun r => r.user_id = uid)).map
            (fun r => if r.payment_status = "paid"
              then (if r.payment_amount.getD 0 ≠ 0 then r.payment_amount.getD 0 else r.total)
              else 0)).sum
    ∧ (get_payment_statistics db uid).total_pending
        = ((db.quotations.filter (fun r => r.user_id = uid)).map
            (fun r => if r.payment_status = "unpaid" then r.total else 0)).sum
    ∧ (get_payment_statistics db uid).overdue_count
        = ((db.quotations.filter (fun r => r.user_id = uid)).filter
            (fun r => r.payment_status = "unpaid")).length
    ∧ (∀ r : QuotationRow, r.user_id = uid →
        r.payment_status ≠ "paid" → r.payment_status ≠ "unpaid" →
        get_payment_statistics { db with quotations := db.quotations ++ [r] } uid
          = { get_payment_statistics db uid with
              total_expected := (get_payment_statistics db uid).total_expected
                + r.total }) := by
  have hfun : (fun r : QuotationRow =>
        if r.payment_status = "paid" then pyOrTotal r.payment_amount r.total else 0)
      = (fun r : QuotationRow =>
        if r.payment_status = "paid"
          then (if r.payment_amount.getD 0 ≠ 0 then r.payment_amount.getD 0 else r.total)
          else 0) := by
    funext r
    by_cases hp : r.payment_status = "paid"
    · cases hpa : r.payment_amount with
      | none => simp [hp, pyOrTotal]
      | some v => by_cases hv : v = 0 <;> simp [hp, hv, pyOrTotal]
    · simp [hp]
  refine ⟨rfl, ?_, ?_, rfl, ?_⟩
  · show ((((db.quotations.filter (fun r => r.user_id = uid)).filter
        (fun r => r.payment_status = "paid")).map
          (fun r => pyOrTotal r.payment_amount r.total)).sum) = _
    rw [sum_filter_eq_sum_map_ite (fun r => r.payment_status = "paid")
      (fun r => pyOrTotal r.payment_amount r.total)
      (db.quotations.filter (fun r => r.user_id = uid)), hfun]
  · exact sum_filter_eq_sum_map_ite (fun r => r.payment_status = "unpaid")
      (fun r => r.total)
      (db.quotations.filter (fun r => r.user_id = uid))
  · intro r hu hpaid hunpaid
    unfold get_payment_statistics
    simp [List.filter_append, hu, hpaid, hunpaid]

/-- A quotation whose payment status is neither paid nor unpaid. -/
def exQuotMixed : QuotationRow :=
  { id := "q5", user_id := "u1", customer_id := "c1", quotation_number := "Q-P"
    subtotal := 10, discount_amount := 0, tax_rate := 20, tax_amount := 2, total := 12
    notes := none, status := "pending", payment_status := "partial" }

/-- C10 witness: adding a `partial`-status quotation raises only
`total_expected`. -/
theorem C10_witness :
    exQuotMixed.user_id = "u1"
    ∧ exQuotMixed.payment_status ≠ "paid"
    ∧ exQuotMixed.payment_status ≠ "unpaid"
    ∧ get_payment_statistics { exDB1 with quotations := exDB1.quotations ++ [exQuotMixed] } "u1"
        = { get_payment_statistics exDB1 "u1" with
            total_expected := (get_payment_statistics exDB1 "u1").total_expected
              + exQuotMixed.total } :=
  ⟨rfl, by decide, by decide,
    (C10_payment_statistics exDB1 "u1").2.2.2.2 exQuotMixed rfl (by decide) (by decide)⟩

end Teklif
